import Mathlib

/-!
Verification development for the SoDeLe PV-simulation pipeline.

Shallow embedding of the core components (weather `.dat` file parser,
weather-dataset operations, plant-simulation orchestrator, aggregation
and summary engine) from `src/sodele`, over exact rational arithmetic.
Floating-point values that can be NaN, infinite or negative zero are
modelled by the explicit `FV` type; external collaborators (pvlib solar
position / irradiance, the PV physics engine, pyproj geodesy) are
modelled as oracle parameters or, where a claim depends on their
documented behaviour, as explicitly marked model definitions.
-/

namespace Sodele

/-! ## Basic string and list utilities -/

/-- Sum of the characterwise check: is `p` a contiguous segment of `l`?
Used to state that an error message reports a value or a path. -/
def segIn (p : List Char) : List Char → Bool
  | [] => p.isEmpty
  | c :: cs => p.isPrefixOf (c :: cs) || segIn p cs

/-- String-level containment check built on `segIn`. -/
def strContains (s pat : String) : Bool := segIn pat.data s.data

/-- Maximal runs of ASCII letters in a character list; this is the
behaviour of the column-name regex `[a-zA-Z]+` with `findall`. -/
def alphaRunsAux : List Char → List Char → List (List Char)
  | [], acc => if acc.isEmpty then [] else [acc.reverse]
  | c :: cs, acc =>
    if c.isAlpha then alphaRunsAux cs (c :: acc)
    else if acc.isEmpty then alphaRunsAux cs []
    else acc.reverse :: alphaRunsAux cs []

/-- Column names extracted from a header line, as in
`column_regex.findall(column_name_row)` with `column_regex = [a-zA-Z]+`. -/
def alphaRuns (s : String) : List String :=
  (alphaRunsAux s.data []).map (fun l => ⟨l⟩)

/-- Numeric value of a list of decimal digit characters. -/
def digitsToNat (ds : List Char) : ℕ :=
  ds.foldl (fun a c => 10 * a + (c.toNat - '0'.toNat)) 0

/-- First maximal run of decimal digits in a character list, as matched by
the header regex `\d+` with `findall(...)[0]`; `none` when the list holds
no digit (in which case the source raises inside the converter). -/
def firstDigitRun : List Char → Option (List Char)
  | [] => none
  | c :: cs =>
    if c.isDigit then some (c :: cs.takeWhile Char.isDigit)
    else firstDigitRun cs

/-- Integer conversion used by the header converters
`lambda x: int(int_regex.findall(x)[0])`. -/
def intConv (s : String) : Option ℤ :=
  (firstDigitRun s.data).map (fun ds => (digitsToNat ds : ℤ))

/-- Characters of `s` strictly after the first colon and before the next
colon, mirroring `line.split(":")[1]`; `none` when the line holds no colon
(where the source raises an uncaught IndexError). -/
def afterColon : List Char → Option (List Char)
  | [] => none
  | c :: cs => if c = ':' then some (cs.takeWhile (fun d => d ≠ ':')) else afterColon cs

/-- Trim leading and trailing whitespace, mirroring `str.strip()`. -/
def trimChars (l : List Char) : List Char :=
  ((l.dropWhile Char.isWhitespace).reverse.dropWhile Char.isWhitespace).reverse

/-! ## A model of IEEE-special float values

Exact rational arithmetic augmented with NaN, signed infinity and a
negative-zero marker, enough to embed the NaN / negative-zero handling
that the weather-data operations and the power-profile post-processing
perform (`fillna`, `np.nan_to_num`, `dni[dni == -0.0] = 0.0`). -/

/-- A float value: NaN, a signed infinity, or a finite rational together
with a marker recording an IEEE negative zero (meaningful when the
rational is zero). -/
inductive FV where
  | nan : FV
  | inf : Bool → FV
  | fin : ℚ → Bool → FV
  deriving DecidableEq, Repr

/-- Comparison `x < 0` on a float value: false for NaN and for either
signed zero, true for negative infinity and negative finite values. -/
def fvLtZero : FV → Bool
  | .nan => false
  | .inf pos => !pos
  | .fin q _ => decide (q < 0)

/-- Comparison `x == 0` on a float value: true exactly for the two signed
zeros (IEEE `-0.0 == 0.0` holds); false for NaN and infinities. -/
def fvEqZero : FV → Bool
  | .nan => false
  | .inf _ => false
  | .fin q _ => decide (q = 0)

/-- The greatest finite double, used by `np.nan_to_num` to replace
positive infinity (and its negation for negative infinity). -/
def maxFloatQ : ℚ := (17976931348623157 : ℚ) * 10 ^ 292

/-- Replacement of NaN by `0.0` as done by `Series.fillna(0.0)`. -/
def fillnaFV : FV → FV
  | .nan => .fin 0 false
  | x => x

/-- Behaviour of `np.nan_to_num(_, nan=0.0)`: NaN becomes `0.0` and the
infinities become the extreme finite doubles. -/
def nanToNumFV : FV → FV
  | .nan => .fin 0 false
  | .inf true => .fin maxFloatQ false
  | .inf false => .fin (-maxFloatQ) false
  | x => x

/-- Behaviour of `dni[dni == -0.0] = 0.0`: since IEEE compares
`-0.0 == 0.0` as true, every zero (either sign) becomes positive `0.0`. -/
def negZeroCleanFV (x : FV) : FV :=
  if fvEqZero x then .fin 0 false else x

/-! ## Weather dataset (interfaces/weather_data.py) -/

/-- Canonical hourly weather series, one list per column; mirrors
`WeatherEntry`. Timestamps are encoded as minutes relative to the start
of the series' reference instant, with the UTC offset kept separately in
the dataset metadata. -/
structure WeatherEntry where
  timeStamps : List ℤ
  month : List ℤ
  day : List ℤ
  hour : List ℤ
  temp_air : List ℚ
  atmospheric_pressure : List ℚ
  wind_direction : List ℚ
  wind_speed : List ℚ
  sky_cover : List ℚ
  precipitable_water : List ℚ
  relative_humidity : List ℚ
  dni : List FV
  ghi : List ℚ
  dhi : List ℚ
  deriving DecidableEq, Repr

/-- Weather dataset with site metadata and processing flags; mirrors
`WeatherData` from `interfaces/weather_data.py`. -/
structure WeatherData where
  altitude : ℚ
  kind : String
  years : ℤ
  latitude : ℚ
  longitude : ℚ
  tz : ℤ
  adjustTimestamp : Bool
  recalculateDNI : Bool
  timeshiftInMinutes : ℤ
  weatherData : WeatherEntry
  deriving DecidableEq, Repr

/-- Errors surfaced by the simulation core; constructors mirror the
uncaught Python exceptions (`ValueError`, `KeyError`, `IndexError`). -/
inductive SimError where
  | configError : ℤ → SimError
  | moduleKeyError : String → SimError
  | inverterKeyError : String → SimError
  | installKeyError : ℤ → SimError
  | dcModelKeyError : ℤ → SimError
  | indexError : SimError
  deriving DecidableEq, Repr

/-- Rendered message of a simulation error; the unknown-selector message
is the one raised by `get_database_paths`. -/
def simErrorMessage : SimError → String
  | .configError v => "Unknown modules database type: " ++ toString v
  | .moduleKeyError n => "KeyError: " ++ n
  | .inverterKeyError n => "KeyError: " ++ n
  | .installKeyError v => "KeyError: " ++ toString v
  | .dcModelKeyError v => "KeyError: " ++ toString v
  | .indexError => "IndexError: index 0 is out of bounds"

/-- Shift of the whole timestamp index by `timeshiftInMinutes`, mirroring
`WeatherData.adjust_time_stamp`: the new index is the old index plus the
configured shift; the source then reads element 0 of the new index (an
IndexError on an empty series) and writes the shifted timestamps back.
No other field is touched. -/
def adjustTimeStamp (wd : WeatherData) : Except SimError WeatherData :=
  match wd.weatherData.timeStamps with
  | [] => .error .indexError
  | _ =>
    .ok { wd with
          weatherData :=
            { wd.weatherData with
              timeStamps := wd.weatherData.timeStamps.map
                (fun t => t + wd.timeshiftInMinutes) } }

/-- Modelled from the spec: the external solar-position / DNI-calculation
collaborator (`pvlib.irradiance.dni` with its default thresholds, fed by
`pvlib.solarposition.get_solarposition`), which is not part of this
repository. Given ghi, dhi, the solar zenith angle in degrees and its
cosine for one timestep, it computes `(ghi - dhi) / cos(zenith)`, replaces
negative results by NaN, and replaces non-zero results at zenith angles of
at least 88 degrees by NaN. Division follows IEEE semantics: `0/0` is NaN,
`x/0` is a signed infinity, and `0/c` for negative `c` is negative zero. -/
def pvlibDniRaw (ghi dhi zenith cosZenith : ℚ) : FV :=
  let d0 : FV :=
    if cosZenith = 0 then
      (if ghi - dhi = 0 then .nan else .inf (decide (ghi - dhi > 0)))
    else .fin ((ghi - dhi) / cosZenith) (decide (ghi - dhi = 0) && decide (cosZenith < 0))
  let d1 := if fvLtZero d0 then FV.nan else d0
  if 88 ≤ zenith ∧ fvEqZero d1 = false then FV.nan else d1

/-- Elementwise application of the DNI collaborator over the series; the
zenith/cosine pairs come from the solar-position collaborator. -/
def pvlibDniSeries : List ℚ → List ℚ → List (ℚ × ℚ) → List FV
  | g :: gs, d :: ds, zc :: zcs =>
    pvlibDniRaw g d zc.1 zc.2 :: pvlibDniSeries gs ds zcs
  | _, _, _ => []

/-- Recalculation of the DNI column, mirroring
`WeatherData.recalculate_dni`: the collaborator output is cleaned by
`fillna(0.0)`, then `np.nan_to_num(_, nan=0.0)`, then
`dni[dni == -0.0] = 0.0`, and written back as the dataset's dni column. -/
def recalculateDni (wd : WeatherData) (zc : List (ℚ × ℚ)) : WeatherData :=
  let raw := pvlibDniSeries wd.weatherData.ghi wd.weatherData.dhi zc
  let cleaned := ((raw.map fillnaFV).map nanToNumFV).map negZeroCleanFV
  { wd with weatherData := { wd.weatherData with dni := cleaned } }

/-- Observable pipeline events of the orchestrator's weather preamble. -/
inductive PEvent where
  | adjustTS : PEvent
  | warn : PEvent
  | recalcDNI : PEvent
  deriving DecidableEq, Repr

/-- The weather preamble of `simulate_pv_plants` (lines 352-358):
adjust the timestamps when requested; then, when DNI recalculation is
requested, emit a warning if the timestamps were not adjusted and
recalculate the DNI. The returned trace records the operations and the
warning in execution order. -/
def weatherPreamble (wd : WeatherData) (zc : List (ℚ × ℚ)) :
    Except SimError (WeatherData × List PEvent) := do
  let step1 ←
    if wd.adjustTimestamp then do
      let w ← adjustTimeStamp wd
      pure (w, [PEvent.adjustTS])
    else pure (wd, ([] : List PEvent))
  if wd.recalculateDNI then
    let warnTrace := if !wd.adjustTimestamp then [PEvent.warn] else []
    pure (recalculateDni step1.1 zc, step1.2 ++ warnTrace ++ [PEvent.recalcDNI])
  else
    pure step1

/-! ## Weather file parser (core/weather_data_reader.py, read_in_dat_file)

The raw `.dat` file is taken in a lightly structured form: the header
lines before the `***` sentinel (the last of which carries the column
names), and the tabular block already tokenized into rows of rationals
(whitespace splitting and float lexing by `pd.read_table` are abstracted;
the row/column structure, the row-count check and all header parsing are
embedded from the source). -/

/-- A fixed-format regional weather file: header lines up to (excluding)
the `***` sentinel, and the whitespace-tokenized numeric data rows that
follow the sentinel. -/
structure DatFile where
  headerLines : List String
  dataRows : List (List ℚ)
  deriving DecidableEq, Repr

/-- Errors of the `.dat` parser; each mirrors a `ValueError` or uncaught
exception of the source, carrying the data the message interpolates. -/
inductive DatError where
  | headerIndexError : String → DatError
  | metadataError : String → DatError
  | metaKeyError : String → String → DatError
  | rowCountError : String → ℕ → DatError
  | columnKeyError : String → DatError
  | dataError : String → DatError
  deriving DecidableEq, Repr

/-- Rendered message of a parser error; the row-count message is the one
raised at the `shape[0] != 8760` check and interpolates the actual row
count and the source file path. -/
def datErrorMessage : DatError → String
  | .headerIndexError path => "IndexError while reading the header of " ++ path
  | .metadataError path =>
      "Could not read in the metadata of .dat weather data file " ++ path ++ "."
  | .metaKeyError _ key => "KeyError: " ++ key
  | .rowCountError path n =>
      "Could not read in the .dat weather data file " ++ path ++ ". " ++
        toString n ++
        " datapoints has been read in instead of 8760. Checke the .dat file and make sure, that the datapoints begin with ***!"
  | .columnKeyError key => "KeyError: " ++ key
  | .dataError path =>
      "Could not read the datapoints in the .dat weather data file " ++ path ++ "."

/-- Header metadata accumulated by the prefix-keyed scan; optional fields
mirror the fact that the source builds a plain dict. -/
structure DatMetadata where
  rechtswert : Option ℤ := none
  hochwert : Option ℤ := none
  altitude : Option ℤ := none
  kind : Option String := none
  deriving DecidableEq, Repr

/-- One step of the header scan: each recognized key label is matched by
prefix against the line and its converter applied to the text after the
first colon, mirroring the `meta_keys` table. A matched line without a
colon reproduces the source's uncaught IndexError on `row[1]`; a failing
integer conversion reproduces the caught exception re-raised as the
metadata ValueError. -/
def processHeaderLine (path : String) (m : DatMetadata) (line : String) :
    Except DatError DatMetadata := do
  let m ←
    if "Rechtswert".data.isPrefixOf line.data then do
      let some payload := afterColon line.data | throw (.headerIndexError path)
      let some v := intConv ⟨payload⟩ | throw (.metadataError path)
      pure { m with rechtswert := some v }
    else pure m
  let m ←
    if "Hochwert".data.isPrefixOf line.data then do
      let some payload := afterColon line.data | throw (.headerIndexError path)
      let some v := intConv ⟨payload⟩ | throw (.metadataError path)
      pure { m with hochwert := some v }
    else pure m
  let m ←
    if "Hoehenlage".data.isPrefixOf line.data then do
      let some payload := afterColon line.data | throw (.headerIndexError path)
      let some v := intConv ⟨payload⟩ | throw (.metadataError path)
      pure { m with altitude := some v }
    else pure m
  if "Art des TRY".data.isPrefixOf line.data then do
    let some payload := afterColon line.data | throw (.headerIndexError path)
    pure { m with kind := some ⟨trimChars payload⟩ }
  else pure m

/-- The header scan over all lines before the sentinel. -/
def processHeader (path : String) (lines : List String) :
    Except DatError DatMetadata :=
  lines.foldlM (processHeaderLine path) {}

/-- Position of a column name in the column-name row. -/
def colIdxAux : List String → String → ℕ → Option ℕ
  | [], _, _ => none
  | n :: ns, c, k => if n = c then some k else colIdxAux ns c (k + 1)

/-- Index of the first occurrence of a column name, `none` when absent. -/
def colIdx (names : List String) (c : String) : Option ℕ :=
  colIdxAux names c 0

/-- The cells of one column across all data rows, failing on a row that
lacks the cell. -/
def colVals (path : String) (i : ℕ) : List (List ℚ) → Except DatError (List ℚ)
  | [] => .ok []
  | r :: rs => do
    let some v := r[i]? | throw (.dataError path)
    let rest ← colVals path i rs
    pure (v :: rest)

/-- Column lookup of `dat_data[c]`: position of the column name in the
column-name row, then that cell of every data row. A missing name is the
pandas KeyError; a row lacking the cell surfaces as the data error. -/
def getCol (path : String) (colNames : List String) (rows : List (List ℚ))
    (c : String) : Except DatError (List ℚ) := do
  let some i := colIdx colNames c | throw (.columnKeyError c)
  colVals path i rows

/-- The column names of the tabular block, extracted from the header line
immediately before the sentinel (the last header line). -/
def colNamesOf (file : DatFile) : List String :=
  alphaRuns (file.headerLines.getLastD "")

/-- The synthesized hourly timestamp sequence
`pd.date_range('2015-01-01 00:00:00', '2015-12-31 23:00:00', freq='h')`:
8760 instants at one-hour cadence, encoded as minutes since
2015-01-01 00:00 at the dataset's UTC offset. -/
def datRange : List ℤ :=
  (List.range 8760).map (fun i : ℕ => (60 : ℤ) * (i : ℤ))

/-- Lengths of the months of the non-leap reference year 2015. -/
def monthLengths : List ℕ := [31, 28, 31, 30, 31, 30, 31, 31, 30, 31, 30, 31]

/-- Month and day-of-month (1-based) of a 0-based day of the year. -/
def monthDayAux : List ℕ → ℕ → ℕ → ℕ × ℕ
  | [], mIdx, d => (mIdx, d + 1)
  | len :: rest, mIdx, d =>
    if d < len then (mIdx, d + 1) else monthDayAux rest (mIdx + 1) (d - len)

/-- Month component of a timestamp given as minutes since Jan 1 00:00. -/
def monthOfMinutes (t : ℤ) : ℤ :=
  ((monthDayAux monthLengths 1 (t.toNat / 1440)).1 : ℤ)

/-- Day component of a timestamp given as minutes since Jan 1 00:00. -/
def dayOfMinutes (t : ℤ) : ℤ :=
  ((monthDayAux monthLengths 1 (t.toNat / 1440)).2 : ℤ)

/-- Hour component of a timestamp given as minutes since Jan 1 00:00. -/
def hourOfMinutes (t : ℤ) : ℤ :=
  (t.toNat / 60 % 24 : ℕ)

/-- The parser for fixed-format regional `.dat` weather files, mirroring
`read_in_dat_file`. `tf` is the external pyproj geodesy collaborator
`(hochwert, rechtswert) -> (latitude, longitude)`. Steps, in source
order: scan the header accumulating prefix-matched metadata, take the
column names from the line right before the sentinel, convert the
projected coordinates, hard-code the UTC offset `TZ = 1`, check for
exactly 8760 data rows, and derive the canonical columns (pressure in
hectopascal times 100, dhi the `D` column, ghi the sum of dhi and the
direct-horizontal column `B`, and dni initialized with the `B` column). -/
def parseDatFile (tf : ℤ → ℤ → ℚ × ℚ) (path : String) (file : DatFile) :
    Except DatError WeatherData := do
  let meta ← processHeader path file.headerLines
  let colNames := colNamesOf file
  let some hw := meta.hochwert | throw (.metaKeyError path "Hochwert")
  let some rw := meta.rechtswert | throw (.metaKeyError path "Rechtswert")
  let latlon := tf hw rw
  let tzVal : ℤ := 1
  let rows := file.dataRows
  if rows.length ≠ 8760 then throw (.rowCountError path rows.length) else do
  let tCol ← getCol path colNames rows "t"
  let pCol ← getCol path colNames rows "p"
  let wrCol ← getCol path colNames rows "WR"
  let wgCol ← getCol path colNames rows "WG"
  let nCol ← getCol path colNames rows "N"
  let xCol ← getCol path colNames rows "x"
  let rfCol ← getCol path colNames rows "RF"
  let bCol ← getCol path colNames rows "B"
  let dCol ← getCol path colNames rows "D"
  pure {
    altitude := ((meta.altitude.getD 0 : ℤ) : ℚ)
    kind := meta.kind.getD "unknown"
    years := 2015
    latitude := latlon.1
    longitude := latlon.2
    tz := tzVal
    adjustTimestamp := true
    recalculateDNI := true
    timeshiftInMinutes := 30
    weatherData := {
      timeStamps := datRange
      month := datRange.map monthOfMinutes
      day := datRange.map dayOfMinutes
      hour := datRange.map hourOfMinutes
      temp_air := tCol
      atmospheric_pressure := pCol.map (fun v => v * 100)
      wind_direction := wrCol
      wind_speed := wgCol
      sky_cover := nCol
      precipitable_water := xCol
      relative_humidity := rfCol
      dni := bCol.map (fun v => FV.fin v false)
      ghi := List.zipWith (fun d b => d + b) dCol bCol
      dhi := dCol } }

/-- The column names the canonical-field derivation reads from the table. -/
def requiredCols : List String := ["t", "p", "WR", "WG", "N", "x", "RF", "B", "D"]

/-- Well-formedness of a `.dat` file: the header scan succeeds and yields
both projected coordinates, every required column name occurs in the
column-name row, and every data row has a cell for every column name. -/
structure WfDat (path : String) (file : DatFile) : Prop where
  headerOk : ∃ m, processHeader path file.headerLines = .ok m ∧
    m.hochwert.isSome ∧ m.rechtswert.isSome
  colsOk : ∀ c ∈ requiredCols, (colIdx (colNamesOf file) c).isSome
  rowsOk : ∀ r ∈ file.dataRows, (colNamesOf file).length ≤ r.length

/-- Definition following the claim's words, for comparison with the code:
the UTC offset a header declares, read from a header line labelled with a
UTC-offset key. The parser itself never reads such a line. -/
def specDeclaredUtcOffset (headerLines : List String) : Option ℤ :=
  headerLines.findSome? (fun l =>
    if "UTC offset".data.isPrefixOf l.data then intConv l else none)

/-! ## Plant model and simulation orchestrator (interfaces/pv_specifics.py,
misc/database.py, core/pv_simulation.py) -/

/-- Electrical parameters of a module record as retrieved from the module
database; the Sandia schema uses `Impo`/`Vmpo`/`Area`, the CEC schema
uses `I_mp_ref`/`V_mp_ref`/`A_c`. -/
structure ModuleRecord where
  Impo : ℚ
  Vmpo : ℚ
  Area : ℚ
  I_mp_ref : ℚ
  V_mp_ref : ℚ
  A_c : ℚ
  deriving DecidableEq, Repr

/-- An inverter record; its electrical content is consumed only by the
external Sandia inverter collaborator, so it is left abstract. -/
structure InverterRecord where
  present : Unit := ()
  deriving DecidableEq, Repr

/-- A photovoltaic plant configuration with its write-once result fields;
mirrors `PhotovoltaicPlant` from `interfaces/pv_specifics.py`, defaults
included. -/
structure PhotovoltaicPlant where
  surfaceAzimuth : ℚ := 0
  surfaceTilt : ℚ := 0
  modulesPerString : ℚ := 0
  stringsPerInverter : ℤ := 0
  numberOfInverters : ℤ := 0
  albedo : ℚ := 1 / 5
  moduleInstallation : ℤ := 1
  moduleName : String
  lossesIrradiation : ℚ := 1
  lossesDCDatasheet : ℚ := 2
  lossesDCCables : ℚ := 0
  modulesDatabaseType : ℤ := 1
  useInverterDatabase : Bool := false
  inverterName : String := "ABB__MICRO_0_25_I_OUTD_US_208__208V_"
  useStandByPowerInverter : Bool := false
  inverterEta : ℚ := 23 / 25
  energyProfile : Option (List ℚ) := none
  surfaceArea : Option ℚ := none
  systemKWP : Option ℚ := none
  deriving DecidableEq, Repr

/-- Output of the external PV physics engine (`pvlib` ModelChain) and the
external Sandia inverter conversion for one plant: the hourly maximum
power series `dc['p_mp']` and the AC series `pvlib.inverter.sandia(...)`;
entries can be NaN, modelled by `Option`. These series are collaborator
results, not computed by the repository. -/
structure PhysicsOutput where
  pMp : List (Option ℚ)
  sandiaAc : List (Option ℚ)

/-- The environment of external lookups and collaborators available to a
simulation run: the two module databases, the inverter database, and the
physics-engine output per plant position. -/
structure SimEnv where
  sandiaModules : String → Option ModuleRecord
  cecModules : String → Option ModuleRecord
  inverters : String → Option InverterRecord
  physics : ℕ → PhysicsOutput

/-- Database selection from `get_database_paths` together with the module
and inverter retrieval of `PhotovoltaicPlant.get_modules_and_inverters`:
an unknown database selector raises the ValueError naming the bad value,
and an unresolved module or inverter name raises the pandas KeyError. -/
def getModulesAndInverters (env : SimEnv) (plant : PhotovoltaicPlant) :
    Except SimError (ModuleRecord × InverterRecord) := do
  let db ←
    if plant.modulesDatabaseType = 1 then pure env.sandiaModules
    else if plant.modulesDatabaseType = 2 then pure env.cecModules
    else throw (.configError plant.modulesDatabaseType)
  let some currentModule := db plant.moduleName
    | throw (.moduleKeyError plant.moduleName)
  let some currentInverter := env.inverters plant.inverterName
    | throw (.inverterKeyError plant.inverterName)
  pure (currentModule, currentInverter)

/-- The `module_installation_switch` lookup; an unknown installation class
is the uncaught dict KeyError. The value feeds the external temperature
model and is otherwise unused, so only success or failure is kept. -/
def moduleInstallationLookup (plant : PhotovoltaicPlant) :
    Except SimError Unit :=
  if plant.moduleInstallation = 1 ∨ plant.moduleInstallation = 2 ∨
      plant.moduleInstallation = 3 ∨ plant.moduleInstallation = 4 then pure ()
  else throw (.installKeyError plant.moduleInstallation)

/-- The `data_base_switch` lookup selecting the ModelChain dc model; an
unknown selector is the uncaught dict KeyError (unreachable in practice,
because the database-path resolution has already rejected it). -/
def dcModelLookup (plant : PhotovoltaicPlant) : Except SimError Unit :=
  if plant.modulesDatabaseType = 1 ∨ plant.modulesDatabaseType = 2 then pure ()
  else throw (.dcModelKeyError plant.modulesDatabaseType)

/-- Rated power and surface area of all installed modules from the
database-specific fields (lines 143-154 of `core/pv_simulation.py`):
`Impo * Vmpo * n` and `Area * n` for the Sandia schema,
`I_mp_ref * V_mp_ref * n` and `A_c * n` for the CEC schema. -/
def ratedPowerAndArea (dbType : ℤ) (m : ModuleRecord) (nModules : ℚ) :
    Except SimError (ℚ × ℚ) :=
  if dbType = 1 then pure (m.Impo * m.Vmpo * nModules, m.Area * nModules)
  else if dbType = 2 then
    pure (m.I_mp_ref * m.V_mp_ref * nModules, m.A_c * nModules)
  else throw (.configError dbType)

/-- Per-plant results returned by the profile calculation, mirroring the
`PvPlantResults` TypedDict: the hourly energy profile in Wh, the module
surface area, and the annual energy sum in kWh. The rated module power
computed inside the calculation is not part of the returned record. -/
structure PvPlantResults where
  energyProfile : List ℚ
  surfaceArea : ℚ
  sumOfEnergyPerYear : ℚ
  deriving DecidableEq, Repr

/-- The per-plant profile calculation, mirroring `calc_pv_power_profile`.
The external ModelChain run and the environmental-series construction
(irradiance scaling, precipitable water, albedo) only feed the physics
collaborator, whose output arrives in `phys`. The embedded steps are the
module/inverter resolution, the two dict lookups, the DC-to-AC
conversion, the NaN fill, the negative clipping, the rated-power and
surface-area computation, and the Wh energy profile with its kWh sum. -/
def calcPvPowerProfile (env : SimEnv) (plant : PhotovoltaicPlant)
    (phys : PhysicsOutput) : Except SimError PvPlantResults := do
  let mi ← getModulesAndInverters env plant
  let currentModule := mi.1
  let _ ← moduleInstallationLookup plant
  let _ ← dcModelLookup plant
  let nModules : ℚ :=
    (plant.numberOfInverters : ℚ) * (plant.stringsPerInverter : ℚ) *
      plant.modulesPerString
  let rawPower : List (Option ℚ) :=
    if plant.useInverterDatabase then
      phys.sandiaAc.map (Option.map (fun w => (plant.numberOfInverters : ℚ) * w))
    else
      phys.pMp.map (Option.map (fun w =>
        (plant.numberOfInverters : ℚ) * (w * plant.inverterEta)))
  let filled : List ℚ := rawPower.map (fun w => w.getD 0)
  let clipped : List ℚ :=
    if plant.useStandByPowerInverter then filled
    else filled.map (fun w => if w < 0 then 0 else w)
  let ra ← ratedPowerAndArea plant.modulesDatabaseType currentModule nModules
  let energyProfile : List ℚ :=
    clipped.map (fun w => w * 8760 / (clipped.length : ℚ))
  pure {
    energyProfile := energyProfile
    surfaceArea := ra.2
    sumOfEnergyPerYear := energyProfile.sum / 1000 }

/-- The orchestrator's per-plant loop of `simulate_pv_plants`
(lines 363-367): each plant is simulated in order and its result fields
assigned; the stored `systemKWP` is the calculation's
`sumOfEnergyPerYear`. A per-plant error aborts the run and propagates
unchanged. -/
def runPlants (env : SimEnv) : ℕ → List PhotovoltaicPlant →
    Except SimError (List PhotovoltaicPlant)
  | _, [] => .ok []
  | i, p :: ps => do
    let results ← calcPvPowerProfile env p (env.physics i)
    let updated := { p with
      energyProfile := some results.energyProfile
      surfaceArea := some results.surfaceArea
      systemKWP := some results.sumOfEnergyPerYear }
    let rest ← runPlants env (i + 1) ps
    pure (updated :: rest)

/-! ## Aggregation and summary engine (core/pv_simulation.py) -/

/-- The stored hourly energy profile of a plant as the aggregation reads
it; aggregation runs only on completed plants, whose field is assigned. -/
def profileOf (p : PhotovoltaicPlant) : List ℚ :=
  p.energyProfile.getD []

/-- The area-specific energy profile property `energyProfileArea`: the
energy profile divided elementwise by the plant's surface area, empty
when either field is unassigned. -/
def energyProfileArea (p : PhotovoltaicPlant) : List ℚ :=
  match p.energyProfile, p.surfaceArea with
  | some ep, some a => ep.map (fun v => v / a)
  | _, _ => []

/-- Elementwise sum of two equal-length columns, as the pandas row-wise
`sum(axis=1)` combines aligned columns. -/
def addVec (a b : List ℚ) : List ℚ := List.zipWith (fun x y => x + y) a b

/-- Elementwise sum of a list of equal-length columns; the empty selection
sums to the empty column. -/
def sumCols : List (List ℚ) → List ℚ
  | [] => []
  | [c] => c
  | c :: cs => addVec c (sumCols cs)

/-- The energy-profile dataframe of `generate_energy_profile_data_frame`:
per-plant energy and area-specific columns, then the two fleet columns
appended last: the elementwise sum of the energy profiles, and that same
sum divided by the summed surface areas (lines 224-227). -/
structure DataframeResults where
  perPlantEnergy : List (List ℚ)
  perPlantArea : List (List ℚ)
  allColumn : List ℚ
  allAreaColumn : List ℚ
  deriving DecidableEq, Repr

/-- Builds the energy-profile dataframe from the completed plants. -/
def generateEnergyProfileDataFrame (plants : List PhotovoltaicPlant) :
    DataframeResults :=
  let eps := plants.map profileOf
  let surfaceAreas := plants.map (fun p => p.surfaceArea.getD 0)
  { perPlantEnergy := eps
    perPlantArea := plants.map energyProfileArea
    allColumn := sumCols eps
    allAreaColumn := (sumCols eps).map (fun v => v / surfaceAreas.sum) }

/-- Definition following the spec's words, for comparison with the code:
the fleet-level hourly area-normalized profile as the elementwise
arithmetic mean over plants of the individual per-plant area profiles. -/
def specFleetAreaProfile (plants : List PhotovoltaicPlant) : List ℚ :=
  (sumCols (plants.map energyProfileArea)).map
    (fun v => v / (plants.length : ℚ))

/-- The summary dataframe of `generate_summary_data_frame`: one
`(annual sum, per-kWp yield, per-area yield)` triple per plant, and the
fleet triple of the result column (lines 249-258 and 272-277): total of
the summed profile, that total divided by the summed `systemKWP`
collector, and that total divided by the summed surface areas. -/
structure SummaryResults where
  perPlant : List (ℚ × ℚ × ℚ)
  fleet : ℚ × ℚ × ℚ
  deriving DecidableEq, Repr

/-- Builds the summary dataframe from the completed plants. -/
def generateSummaryDataFrame (plants : List PhotovoltaicPlant) :
    SummaryResults :=
  let eps := plants.map profileOf
  let surfaceAreas := plants.map (fun p => p.surfaceArea.getD 0)
  let kwps := plants.map (fun p => p.systemKWP.getD 0)
  let energyProfileSum := sumCols eps
  let energyPerSystem := eps.map (fun c => c.sum)
  { perPlant :=
      (energyPerSystem.zip (kwps.zip surfaceAreas)).map
        (fun e => (e.1, e.1 / e.2.1, e.1 / e.2.2))
    fleet :=
      (energyProfileSum.sum,
       energyProfileSum.sum / kwps.sum,
       energyProfileSum.sum / surfaceAreas.sum) }

/-- One serialized result record, mirroring `PvResult`. -/
structure PvResultR where
  EnergyProfile : List ℚ
  EnergyAreaProfile : List ℚ
  SumOfEnergyPerYear : ℚ
  WorkSpecificEnergyPerYear : ℚ
  AreaSpecificEnergyPerYear : ℚ
  deriving DecidableEq, Repr

/-- The synthetic summary-of-all-plants record assembled by
`build_result_dict`: the last two dataframe columns (the fleet energy and
fleet area profiles) and the three rows of the summary result column. -/
def buildSummaryOfAllPlants (plants : List PhotovoltaicPlant) : PvResultR :=
  let er := generateEnergyProfileDataFrame plants
  let sr := generateSummaryDataFrame plants
  { EnergyProfile := er.allColumn
    EnergyAreaProfile := er.allAreaColumn
    SumOfEnergyPerYear := sr.fleet.1
    WorkSpecificEnergyPerYear := sr.fleet.2.1
    AreaSpecificEnergyPerYear := sr.fleet.2.2 }

/-! ## Concrete data used by witnesses and counterexamples -/

/-- The spacing between consecutive timestamps at position `i`. -/
def gap (l : List ℤ) (i : ℕ) : Option ℤ :=
  match l[i]?, l[i + 1]? with
  | some a, some b => some (b - a)
  | _, _ => none

/-- A small two-record weather series for concrete checks. -/
def entryEx : WeatherEntry where
  timeStamps := [0, 60]
  month := [1, 1]
  day := [1, 1]
  hour := [0, 1]
  temp_air := [5, 6]
  atmospheric_pressure := [100000, 100000]
  wind_direction := [0, 0]
  wind_speed := [3, 3]
  sky_cover := [0, 0]
  precipitable_water := [1, 1]
  relative_humidity := [70, 70]
  dni := [.fin 100 false, .fin 0 false]
  ghi := [5, 120]
  dhi := [5, 40]

/-- A concrete weather dataset requesting DNI recalculation without
timestamp adjustment. -/
def wdEx : WeatherData where
  altitude := 450
  kind := "mittleres Jahr"
  years := 2015
  latitude := 51
  longitude := 9
  tz := 1
  adjustTimestamp := false
  recalculateDNI := true
  timeshiftInMinutes := 30
  weatherData := entryEx

/-- A concrete solar-position collaborator output (zenith, cosine) for the
two timesteps of `entryEx`; index 0 has ghi equal to dhi. -/
def zcEx : List (ℚ × ℚ) := [(30, 7 / 8), (95, -1 / 10)]

/-- A concrete Sandia-schema module record. -/
def moduleEx : ModuleRecord where
  Impo := 8
  Vmpo := 30
  Area := 2
  I_mp_ref := 0
  V_mp_ref := 0
  A_c := 0

/-- A concrete physics-engine output with one timestep. -/
def physEx : PhysicsOutput where
  pMp := [some 1000]
  sandiaAc := [some 900]

/-- A concrete simulation environment resolving the module name
`TestMod` in the Sandia database. -/
def envEx : SimEnv where
  sandiaModules := fun n => if n = "TestMod" then some moduleEx else none
  cecModules := fun _ => none
  inverters := fun _ => some {}
  physics := fun _ => physEx

/-- A plant that simulates successfully in `envEx`. -/
def goodPlantEx : PhotovoltaicPlant where
  moduleName := "TestMod"
  modulesPerString := 1
  stringsPerInverter := 1
  numberOfInverters := 1
  inverterEta := 1 / 2

/-- The same plant with an unknown module-database selector. -/
def badPlantEx : PhotovoltaicPlant :=
  { goodPlantEx with modulesDatabaseType := 3 }

/-- The good plant after its simulation completed in `envEx`: one hourly
value of 500 W scaled by 8760/1 gives 4380000 Wh, stored with the module
area and, as `systemKWP`, the annual energy sum 4380 kWh. -/
def goodPlantDoneEx : PhotovoltaicPlant :=
  { goodPlantEx with
    energyProfile := some [4380000]
    surfaceArea := some 2
    systemKWP := some 4380 }

/-- A completed plant with profile `[2]` and area 1. -/
def plantAEx : PhotovoltaicPlant where
  moduleName := "m"
  energyProfile := some [2]
  surfaceArea := some 1
  systemKWP := some 1

/-- A completed plant with profile `[0]` and area 3. -/
def plantBEx : PhotovoltaicPlant where
  moduleName := "m"
  energyProfile := some [0]
  surfaceArea := some 3
  systemKWP := some 1

/-- A well-formed `.dat` header, ending with the column-name row. -/
def headerEx : List String :=
  ["TRY2015 Testreferenzjahr",
   "Rechtswert        : 3936500 Meter",
   "Hochwert          : 2449500 Meter",
   "Hoehenlage        : 450 Meter ueber NN",
   "Art des TRY       : mittleres Jahr",
   "RW HW MM DD HH t p WR WG N x RF B D A E IL"]

/-- The same header with an additional line declaring a UTC offset of 2,
which the parser does not read. -/
def headerUtcEx : List String :=
  ["TRY2015 Testreferenzjahr",
   "Rechtswert        : 3936500 Meter",
   "Hochwert          : 2449500 Meter",
   "Hoehenlage        : 450 Meter ueber NN",
   "Art des TRY       : mittleres Jahr",
   "UTC offset        : 2",
   "RW HW MM DD HH t p WR WG N x RF B D A E IL"]

/-- One tokenized data row with the seventeen declared columns. -/
def rowEx : List ℚ :=
  [3936500, 2449500, 1, 1, 1, 5, 1000, 90, 3, 4, 5, 70, 100, 50, 300, -60, 0]

/-- A `.dat` file with the well-formed header and `n` copies of the row. -/
def datFileEx (n : ℕ) : DatFile :=
  ⟨headerEx, List.replicate n rowEx⟩

/-- A `.dat` file whose header declares a UTC offset of 2. -/
def datFileUtcEx : DatFile :=
  ⟨headerUtcEx, List.replicate 8760 rowEx⟩

/-- A concrete geodesy collaborator for witnesses. -/
def tfEx : ℤ → ℤ → ℚ × ℚ := fun _ _ => (51, 9)

/-- A completed plant carrying profile `X`, surface area `A` and stored
`systemKWP` value `K`, as the aggregation engine consumes it. -/
def mkCompletedPlant (name : String) (X : List ℚ) (A K : ℚ) :
    PhotovoltaicPlant where
  moduleName := name
  energyProfile := some X
  surfaceArea := some A
  systemKWP := some K

instance instDecEqExcept {ε α : Type} [DecidableEq ε] [DecidableEq α] :
    DecidableEq (Except ε α) := fun x y =>
  match x, y with
  | .ok a, .ok b =>
    if h : a = b then isTrue (by rw [h])
    else isFalse (fun hh => h (by cases hh; rfl))
  | .error a, .error b =>
    if h : a = b then isTrue (by rw [h])
    else isFalse (fun hh => h (by cases hh; rfl))
  | .ok _, .error _ => isFalse (fun hh => by cases hh)
  | .error _, .ok _ => isFalse (fun hh => by cases hh)

/-! ## Helper lemmas -/

theorem isPrefixOf_append_self (p r : List Char) :
    p.isPrefixOf (p ++ r) = true := by
  induction p with
  | nil => simp [List.isPrefixOf]
  | cons a as ih => simp [List.isPrefixOf, ih]

theorem segIn_of_isPrefixOf {p l : List Char} (h : p.isPrefixOf l = true) :
    segIn p l = true := by
  cases l with
  | nil =>
    cases p with
    | nil => rfl
    | cons a as => simp [List.isPrefixOf] at h
  | cons a as =>
    show (p.isPrefixOf (a :: as) || segIn p as) = true
    rw [h, Bool.true_or]

theorem segIn_append (p pre post : List Char) :
    segIn p (pre ++ p ++ post) = true := by
  induction pre with
  | nil => exact segIn_of_isPrefixOf (isPrefixOf_append_self p post)
  | cons a as ih =>
    have harr : (a :: as) ++ p ++ post = a :: (as ++ p ++ post) := by simp
    rw [harr]
    show (p.isPrefixOf (a :: (as ++ p ++ post)) || segIn p (as ++ p ++ post)) = true
    rw [ih, Bool.or_true]

theorem segIn_split {p l : List Char} (pre post : List Char)
    (h : l = pre ++ p ++ post) : segIn p l = true := by
  rw [h]; exact segIn_append p pre post

theorem addVec_hit {a b : List ℚ} {i : ℕ} {x y : ℚ}
    (ha : a[i]? = some x) (hb : b[i]? = some y) :
    (addVec a b)[i]? = some (x + y) := by
  induction a generalizing b i with
  | nil => simp at ha
  | cons u us ih =>
    cases b with
    | nil => simp at hb
    | cons v vs =>
      cases i with
      | zero =>
        simp at ha hb
        simp [addVec, ha, hb]
      | succ j =>
        simp at ha hb
        simpa [addVec] using ih ha hb

theorem addVec_length (a b : List ℚ) :
    (addVec a b).length = min a.length b.length := by
  simp [addVec]

theorem addVec_sum {a b : List ℚ} (h : a.length = b.length) :
    (addVec a b).sum = a.sum + b.sum := by
  induction a generalizing b with
  | nil =>
    cases b with
    | nil => simp [addVec]
    | cons v vs => simp at h
  | cons u us ih =>
    cases b with
    | nil => simp at h
    | cons v vs =>
      simp at h
      simp [addVec] at ih ⊢
      rw [ih h]
      ring

theorem sumCols_cons_cons (u v : List ℚ) (cs : List (List ℚ)) :
    sumCols (u :: v :: cs) = addVec u (sumCols (v :: cs)) := by
  rfl

theorem sumCols_length {cols : List (List ℚ)} {n : ℕ}
    (hne : cols ≠ []) (h : ∀ col ∈ cols, col.length = n) :
    (sumCols cols).length = n := by
  induction cols with
  | nil => exact absurd rfl hne
  | cons u cs ih =>
    cases cs with
    | nil => simpa [sumCols] using h u (by simp)
    | cons v ds =>
      rw [sumCols_cons_cons, addVec_length]
      have hu := h u (by simp)
      have hrest := ih (by simp) (fun x hx => h x (by simp [hx]))
      rw [hu, hrest]
      simp

theorem sumCols_hit {cols : List (List ℚ)} {n i : ℕ}
    (hne : cols ≠ []) (h : ∀ col ∈ cols, col.length = n) (hi : i < n) :
    (sumCols cols)[i]? = some ((cols.map (fun col => col.getD i 0)).sum) := by
  induction cols with
  | nil => exact absurd rfl hne
  | cons u cs ih =>
    have hui : i < u.length := by rw [h u (by simp)]; exact hi
    have huv : u[i]? = some (u.get ⟨i, hui⟩) := List.getElem?_eq_getElem hui
    have hud : u.getD i 0 = u.get ⟨i, hui⟩ := by
      rw [List.getD_eq_getElem?_getD, huv]; rfl
    cases cs with
    | nil =>
      simp only [sumCols, List.map_cons, List.map_nil, List.sum_cons,
        List.sum_nil, add_zero, huv, hud]
    | cons v ds =>
      rw [sumCols_cons_cons]
      have hrest := ih (by simp) (fun x hx => h x (by simp [hx]))
      rw [addVec_hit huv hrest]
      simp only [List.map_cons, List.sum_cons]
      rw [hud]

theorem sumCols_replicate_sum {N : ℕ} (X : List ℚ) (h : 1 ≤ N) :
    (sumCols (List.replicate N X)).sum = (N : ℚ) * X.sum := by
  induction N with
  | zero => omega
  | succ M ih =>
    cases Nat.eq_or_lt_of_le h with
    | inl h1 =>
      have hM0 : M = 0 := by omega
      subst hM0
      simp [sumCols]
    | inr h2 =>
      have hM : 1 ≤ M := by omega
      obtain ⟨P, hP⟩ : ∃ P, M = P + 1 := ⟨M - 1, by omega⟩
      have hlenrest : (sumCols (List.replicate M X)).length = X.length := by
        refine sumCols_length ?_ ?_
        · subst hP; simp [List.replicate]
        · intro col hc
          rw [List.eq_of_mem_replicate hc]
      have hcons : sumCols (List.replicate (M + 1) X) =
          addVec X (sumCols (List.replicate M X)) := by
        subst hP
        rw [List.replicate_succ X (P + 1), List.replicate_succ X P]
        exact sumCols_cons_cons X X (List.replicate P X)
      rw [hcons, addVec_sum hlenrest.symm, ih hM]
      push_cast
      ring

theorem gap_map_add (l : List ℤ) (m : ℤ) (i : ℕ) :
    gap (l.map (fun t => t + m)) i = gap l i := by
  unfold gap
  rw [List.getElem?_map, List.getElem?_map]
  cases l[i]? with
  | none => rfl
  | some a =>
    cases l[i + 1]? with
    | none => rfl
    | some b =>
      show some (b + m - (a + m)) = some (b - a)
      congr 1
      ring

theorem colVals_ok (path : String) {i : ℕ} {rows : List (List ℚ)}
    (h : ∀ r ∈ rows, i < r.length) :
    ∃ v, colVals path i rows = .ok v ∧ v.length = rows.length := by
  induction rows with
  | nil => exact ⟨[], rfl, rfl⟩
  | cons r rs ih =>
    have hri : i < r.length := h r (by simp)
    have hr : r[i]? = some (r.get ⟨i, hri⟩) := List.getElem?_eq_getElem hri
    obtain ⟨v, hv, hvl⟩ := ih (fun x hx => h x (by simp [hx]))
    refine ⟨(r.get ⟨i, hri⟩) :: v, ?_, by simp [hvl]⟩
    simp only [colVals, hr, hv, bind, Except.bind, pure, Except.pure]

theorem colIdxAux_lt {names : List String} {c : String} {k i : ℕ}
    (h : colIdxAux names c k = some i) : i < k + names.length := by
  induction names generalizing k with
  | nil => simp [colIdxAux] at h
  | cons n ns ih =>
    rw [List.length_cons]
    by_cases hn : n = c
    · simp [colIdxAux, hn] at h
      omega
    · simp [colIdxAux, hn] at h
      have hh := ih h
      omega

theorem colIdx_lt {names : List String} {c : String} {i : ℕ}
    (h : colIdx names c = some i) : i < names.length := by
  have hh := colIdxAux_lt (show colIdxAux names c 0 = some i from h)
  omega

theorem getCol_ok (path : String) {colNames : List String}
    {rows : List (List ℚ)} {c : String}
    (hc : (colIdx colNames c).isSome)
    (hr : ∀ r ∈ rows, colNames.length ≤ r.length) :
    ∃ v, getCol path colNames rows c = .ok v ∧ v.length = rows.length := by
  obtain ⟨i, hi⟩ := Option.isSome_iff_exists.mp hc
  have hilt := colIdx_lt hi
  obtain ⟨v, hv, hvl⟩ := colVals_ok path
    (fun r hrr => lt_of_lt_of_le hilt (hr r hrr))
  refine ⟨v, ?_, hvl⟩
  simp only [getCol, hi, hv, bind, Except.bind]

theorem datRange_hit (i : ℕ) :
    datRange[i]? = if i < 8760 then some (60 * (i : ℤ)) else none := by
  by_cases h : i < 8760
  · unfold datRange
    rw [List.getElem?_map, List.getElem?_range h, if_pos h]
    rfl
  · unfold datRange
    rw [List.getElem?_map, List.getElem?_eq_none, if_neg h]
    · rfl
    · simpa using Nat.le_of_not_lt h

theorem datRange_length : datRange.length = 8760 := by
  simp [datRange]

attribute [irreducible] datRange

theorem fvClean_ne_nan_negZero (x : FV) :
    negZeroCleanFV (nanToNumFV (fillnaFV x)) ≠ FV.nan ∧
    negZeroCleanFV (nanToNumFV (fillnaFV x)) ≠ FV.fin 0 true := by
  cases x with
  | nan => simp [fillnaFV, nanToNumFV, negZeroCleanFV, fvEqZero]
  | inf b =>
    cases b <;>
      · simp only [fillnaFV, nanToNumFV, negZeroCleanFV]
        split <;> simp
  | fin q n =>
    simp only [fillnaFV, nanToNumFV, negZeroCleanFV, fvEqZero,
      decide_eq_true_eq]
    split <;> rename_i hq
    · simp
    · constructor
      · simp
      · intro hcontra
        cases hcontra
        exact hq rfl

theorem pvlibDniRaw_diag (g z c : ℚ) :
    negZeroCleanFV (nanToNumFV (fillnaFV (pvlibDniRaw g g z c))) =
      FV.fin 0 false := by
  unfold pvlibDniRaw
  have hzero : g - g = 0 := sub_self g
  by_cases hc : c = 0
  · simp [hc, hzero, fvLtZero, fvEqZero, fillnaFV, nanToNumFV, negZeroCleanFV]
  · have hdiv : (g - g) / c = 0 := by rw [hzero]; simp
    simp [hc, hzero, hdiv, fvLtZero, fvEqZero, fillnaFV, nanToNumFV,
      negZeroCleanFV]

theorem pvlibDniSeries_hit {gs ds : List ℚ} {zcs : List (ℚ × ℚ)}
    {i : ℕ} {v : FV} (h : (pvlibDniSeries gs ds zcs)[i]? = some v) :
    ∃ g d zc, gs[i]? = some g ∧ ds[i]? = some d ∧ zcs[i]? = some zc ∧
      v = pvlibDniRaw g d zc.1 zc.2 := by
  induction gs generalizing ds zcs i with
  | nil => simp [pvlibDniSeries] at h
  | cons g gs ih =>
    cases ds with
    | nil => simp [pvlibDniSeries] at h
    | cons d ds =>
      cases zcs with
      | nil => simp [pvlibDniSeries] at h
      | cons zc zcs =>
        cases i with
        | zero =>
          simp [pvlibDniSeries] at h
          exact ⟨g, d, zc, by simp, by simp, by simp, h.symm⟩
        | succ j =>
          simp only [pvlibDniSeries, List.getElem?_cons_succ] at h
          obtain ⟨g1, d1, zc1, h1, h2, h3, h4⟩ := ih h
          exact ⟨g1, d1, zc1, by simpa using h1, by simpa using h2,
            by simpa using h3, h4⟩

theorem strContains_of_eq_append {s : String} (pre mid post : String)
    (h : s = pre ++ mid ++ post) : strContains s mid = true := by
  show segIn mid.data s.data = true
  refine segIn_split pre.data post.data ?_
  rw [h, String.data_append, String.data_append]

theorem calc_configError {env : SimEnv} {plant : PhotovoltaicPlant}
    {phys : PhysicsOutput}
    (h1 : plant.modulesDatabaseType ≠ 1) (h2 : plant.modulesDatabaseType ≠ 2) :
    calcPvPowerProfile env plant phys =
      .error (.configError plant.modulesDatabaseType) := by
  simp only [calcPvPowerProfile, getModulesAndInverters, h1, h2, if_false,
    bind, Except.bind, throw, throwThe, MonadExceptOf.throw]

theorem runPlants_cons_err {env : SimEnv} {i : ℕ} {p : PhotovoltaicPlant}
    {ps : List PhotovoltaicPlant} {e : SimError}
    (h : calcPvPowerProfile env p (env.physics i) = .error e) :
    runPlants env i (p :: ps) = .error e := by
  simp only [runPlants, h, bind, Except.bind]

theorem runPlants_append_err {env : SimEnv} (post : List PhotovoltaicPlant)
    (pre : List PhotovoltaicPlant) :
    ∀ {i : ℕ} {qs : List PhotovoltaicPlant} {p : PhotovoltaicPlant}
      {e : SimError},
    runPlants env i pre = .ok qs →
    calcPvPowerProfile env p (env.physics (i + pre.length)) = .error e →
    runPlants env i (pre ++ p :: post) = .error e := by
  induction pre with
  | nil =>
    intro i qs p e hok hcalc
    have hcalc0 : calcPvPowerProfile env p (env.physics i) = .error e := by
      simpa using hcalc
    simpa using runPlants_cons_err hcalc0
  | cons q rest ih =>
    intro i qs p e hok hcalc
    cases hq : calcPvPowerProfile env q (env.physics i) with
    | error err =>
      rw [runPlants_cons_err hq] at hok
      cases hok
    | ok r =>
      cases hrest : runPlants env (i + 1) rest with
      | error err2 =>
        simp only [runPlants, hq, hrest, bind, Except.bind] at hok
        cases hok
      | ok qs2 =>
        have hcalc2 : calcPvPowerProfile env p
            (env.physics ((i + 1) + rest.length)) = .error e := by
          have harith : (i + 1) + rest.length = i + (q :: rest).length := by
            simp [List.length_cons]
            omega
          rw [harith]
          exact hcalc
        have hmain := ih hrest hcalc2
        show runPlants env i (q :: (rest ++ p :: post)) = .error e
        simp only [runPlants, hq, hmain, bind, Except.bind]

theorem wf_datFileEx (n : ℕ) : WfDat "test.dat" (datFileEx n) := by
  refine ⟨⟨⟨some 3936500, some 2449500, some 450, some "mittleres Jahr"⟩,
    ?_, rfl, rfl⟩, ?_, ?_⟩
  · show processHeader "test.dat" headerEx =
      Except.ok ⟨some 3936500, some 2449500, some 450, some "mittleres Jahr"⟩
    decide
  · show ∀ c ∈ requiredCols,
      (colIdx (alphaRuns (headerEx.getLastD "")) c).isSome = true
    decide
  · intro r hr
    have hrr : r = rowEx :=
      List.eq_of_mem_replicate (show r ∈ List.replicate n rowEx from hr)
    rw [hrr]
    show (alphaRuns (headerEx.getLastD "")).length ≤ rowEx.length
    decide

theorem wf_datFileUtcEx : WfDat "test.dat" datFileUtcEx := by
  refine ⟨⟨⟨some 3936500, some 2449500, some 450, some "mittleres Jahr"⟩,
    ?_, rfl, rfl⟩, ?_, ?_⟩
  · show processHeader "test.dat" headerUtcEx =
      Except.ok ⟨some 3936500, some 2449500, some 450, some "mittleres Jahr"⟩
    decide
  · show ∀ c ∈ requiredCols,
      (colIdx (alphaRuns (headerUtcEx.getLastD "")) c).isSome = true
    decide
  · intro r hr
    have hrr : r = rowEx :=
      List.eq_of_mem_replicate (show r ∈ List.replicate 8760 rowEx from hr)
    rw [hrr]
    show (alphaRuns (headerUtcEx.getLastD "")).length ≤ rowEx.length
    decide

set_option maxRecDepth 16384 in
theorem parseDatFile_ok {tf : ℤ → ℤ → ℚ × ℚ} {path : String} {file : DatFile}
    (h : WfDat path file) (hlen : file.dataRows.length = 8760) :
    ∃ wd, parseDatFile tf path file = .ok wd ∧
      wd.weatherData.timeStamps = datRange ∧
      wd.tz = 1 ∧ wd.adjustTimestamp = true ∧ wd.recalculateDNI = true ∧
      wd.timeshiftInMinutes = 30 ∧ wd.years = 2015 ∧
      (∃ colB, getCol path (colNamesOf file) file.dataRows "B" = .ok colB ∧
        wd.weatherData.dni = colB.map (fun v => FV.fin v false) ∧
        colB.length = 8760) ∧
      wd.weatherData.temp_air.length = 8760 ∧
      wd.weatherData.dni.length = 8760 := by
  obtain ⟨m, hm, hhsome, hrsome⟩ := h.headerOk
  obtain ⟨hwv, hhw⟩ := Option.isSome_iff_exists.mp hhsome
  obtain ⟨rwv, hrw⟩ := Option.isSome_iff_exists.mp hrsome
  have hcols := h.colsOk
  have hrows := h.rowsOk
  obtain ⟨tCol, htC, hlT⟩ := getCol_ok path (hcols "t" (by simp [requiredCols])) hrows
  obtain ⟨pCol, hpC, hlP⟩ := getCol_ok path (hcols "p" (by simp [requiredCols])) hrows
  obtain ⟨wrCol, hwrC, hlWR⟩ :=
    getCol_ok path (hcols "WR" (by simp [requiredCols])) hrows
  obtain ⟨wgCol, hwgC, hlWG⟩ :=
    getCol_ok path (hcols "WG" (by simp [requiredCols])) hrows
  obtain ⟨nCol, hnC, hlN⟩ := getCol_ok path (hcols "N" (by simp [requiredCols])) hrows
  obtain ⟨xCol, hxC, hlX⟩ := getCol_ok path (hcols "x" (by simp [requiredCols])) hrows
  obtain ⟨rfCol, hrfC, hlRF⟩ :=
    getCol_ok path (hcols "RF" (by simp [requiredCols])) hrows
  obtain ⟨bCol, hbC, hlB⟩ := getCol_ok path (hcols "B" (by simp [requiredCols])) hrows
  obtain ⟨dCol, hdC, hlD⟩ := getCol_ok path (hcols "D" (by simp [requiredCols])) hrows
  have hq : parseDatFile tf path file = .ok {
      altitude := ((m.altitude.getD 0 : ℤ) : ℚ)
      kind := m.kind.getD "unknown"
      years := 2015
      latitude := (tf hwv rwv).1
      longitude := (tf hwv rwv).2
      tz := 1
      adjustTimestamp := true
      recalculateDNI := true
      timeshiftInMinutes := 30
      weatherData := {
        timeStamps := datRange
        month := datRange.map monthOfMinutes
        day := datRange.map dayOfMinutes
        hour := datRange.map hourOfMinutes
        temp_air := tCol
        atmospheric_pressure := pCol.map (fun v => v * 100)
        wind_direction := wrCol
        wind_speed := wgCol
        sky_cover := nCol
        precipitable_water := xCol
        relative_humidity := rfCol
        dni := bCol.map (fun v => FV.fin v false)
        ghi := List.zipWith (fun d b => d + b) dCol bCol
        dhi := dCol } } := by
    have hcond : ¬ (file.dataRows.length ≠ 8760) := by simp [hlen]
    simp only [parseDatFile, hm, bind, Except.bind, hhw, hrw, pure, Except.pure]
    rw [if_neg hcond]
    rw [htC, hpC, hwrC, hwgC, hnC, hxC, hrfC, hbC, hdC]
  refine ⟨_, hq, ?_, ?_, ?_, ?_, ?_, ?_, ?_, ?_, ?_⟩
  · rfl
  · rfl
  · rfl
  · rfl
  · rfl
  · rfl
  · exact ⟨bCol, hbC, rfl, by rw [hlB, hlen]⟩
  · show tCol.length = 8760
    rw [hlT, hlen]
  · show (bCol.map (fun v => FV.fin v false)).length = 8760
    rw [List.length_map, hlB, hlen]

/-! ## Claim theorems -/

/-- C3: when a weather dataset requests both operations, the timestamp
adjustment is executed before the DNI recalculation (the preamble trace is
adjust-then-recalculate); when DNI recalculation is requested without
timestamp adjustment, the preamble emits a warning, still performs the
recalculation, and does not fail. -/
theorem c3_timestamp_adjustment_order :
    (∀ (wd : WeatherData) (zc : List (ℚ × ℚ)) (res : WeatherData × List PEvent),
      wd.adjustTimestamp = true → wd.recalculateDNI = true →
      weatherPreamble wd zc = .ok res →
      res.2 = [PEvent.adjustTS, PEvent.recalcDNI]) ∧
    (∀ (wd : WeatherData) (zc : List (ℚ × ℚ)),
      wd.adjustTimestamp = false → wd.recalculateDNI = true →
      ∃ res, weatherPreamble wd zc = .ok res ∧
        res.2 = [PEvent.warn, PEvent.recalcDNI] ∧
        res.1 = recalculateDni wd zc) := by
  constructor
  · intro wd zc res h1 h2 hok
    simp only [weatherPreamble, h1, h2, if_true, Bool.not_true, bind,
      Except.bind, pure, Except.pure] at hok
    cases hadj : adjustTimeStamp wd with
    | error e => rw [hadj] at hok; cases hok
    | ok w =>
      rw [hadj] at hok
      simp at hok
      rw [← hok]
  · intro wd zc h1 h2
    refine ⟨(recalculateDni wd zc, [PEvent.warn, PEvent.recalcDNI]), ?_, rfl, rfl⟩
    simp only [weatherPreamble, h1, h2, if_false, Bool.not_false, bind,
      Except.bind, pure, Except.pure]
    rfl

/-- C3 witness: a concrete dataset requesting DNI recalculation without
timestamp adjustment warns, recalculates, and succeeds. -/
theorem c3_timestamp_adjustment_order_witness :
    wdEx.adjustTimestamp = false ∧ wdEx.recalculateDNI = true ∧
    ∃ res, weatherPreamble wdEx zcEx = .ok res ∧
      res.2 = [PEvent.warn, PEvent.recalcDNI] ∧
      res.1 = recalculateDni wdEx zcEx :=
  ⟨rfl, rfl, c3_timestamp_adjustment_order.2 wdEx zcEx rfl rfl⟩

/-- C6: on a weather dataset with a non-empty series, the timestamp
adjustment succeeds, the new first timestamp is the old first timestamp
plus the configured shift in minutes, every inter-record spacing is
unchanged, the UTC offset is preserved, and no field of the dataset other
than the timestamps changes. -/
theorem c6_adjust_time_stamp_shift (wd : WeatherData)
    (hne : wd.weatherData.timeStamps ≠ []) :
    ∃ wd', adjustTimeStamp wd = .ok wd' ∧
      wd'.weatherData.timeStamps.head? =
        wd.weatherData.timeStamps.head?.map
          (fun t => t + wd.timeshiftInMinutes) ∧
      (∀ i, gap wd'.weatherData.timeStamps i =
        gap wd.weatherData.timeStamps i) ∧
      wd'.tz = wd.tz ∧ wd'.altitude = wd.altitude ∧ wd'.kind = wd.kind ∧
      wd'.years = wd.years ∧ wd'.latitude = wd.latitude ∧
      wd'.longitude = wd.longitude ∧
      wd'.adjustTimestamp = wd.adjustTimestamp ∧
      wd'.recalculateDNI = wd.recalculateDNI ∧
      wd'.timeshiftInMinutes = wd.timeshiftInMinutes ∧
      wd'.weatherData.month = wd.weatherData.month ∧
      wd'.weatherData.day = wd.weatherData.day ∧
      wd'.weatherData.hour = wd.weatherData.hour ∧
      wd'.weatherData.temp_air = wd.weatherData.temp_air ∧
      wd'.weatherData.atmospheric_pressure =
        wd.weatherData.atmospheric_pressure ∧
      wd'.weatherData.wind_direction = wd.weatherData.wind_direction ∧
      wd'.weatherData.wind_speed = wd.weatherData.wind_speed ∧
      wd'.weatherData.sky_cover = wd.weatherData.sky_cover ∧
      wd'.weatherData.precipitable_water =
        wd.weatherData.precipitable_water ∧
      wd'.weatherData.relative_humidity =
        wd.weatherData.relative_humidity ∧
      wd'.weatherData.dni = wd.weatherData.dni ∧
      wd'.weatherData.ghi = wd.weatherData.ghi ∧
      wd'.weatherData.dhi = wd.weatherData.dhi := by
  have hok : adjustTimeStamp wd = .ok { wd with
      weatherData := { wd.weatherData with
        timeStamps := wd.weatherData.timeStamps.map
          (fun t => t + wd.timeshiftInMinutes) } } := by
    unfold adjustTimeStamp
    cases hl : wd.weatherData.timeStamps with
    | nil => exact absurd hl hne
    | cons t ts => rfl
  refine ⟨_, hok, ?_, ?_, rfl, rfl, rfl, rfl, rfl, rfl, rfl, rfl, rfl, rfl,
    rfl, rfl, rfl, rfl, rfl, rfl, rfl, rfl, rfl, rfl, rfl, rfl⟩
  · show (wd.weatherData.timeStamps.map
        (fun t => t + wd.timeshiftInMinutes)).head? = _
    rw [List.head?_map]
  · intro i
    exact gap_map_add wd.weatherData.timeStamps wd.timeshiftInMinutes i

/-- C6 witness: the shift applied to a concrete two-record dataset. -/
theorem c6_adjust_time_stamp_shift_witness :
    wdEx.weatherData.timeStamps ≠ [] ∧
    ∃ wd', adjustTimeStamp wdEx = .ok wd' ∧
      wd'.weatherData.timeStamps.head? =
        wdEx.weatherData.timeStamps.head?.map
          (fun t => t + wdEx.timeshiftInMinutes) ∧
      (∀ i, gap wd'.weatherData.timeStamps i =
        gap wdEx.weatherData.timeStamps i) ∧
      wd'.tz = wdEx.tz ∧ wd'.altitude = wdEx.altitude ∧ wd'.kind = wdEx.kind ∧
      wd'.years = wdEx.years ∧ wd'.latitude = wdEx.latitude ∧
      wd'.longitude = wdEx.longitude ∧
      wd'.adjustTimestamp = wdEx.adjustTimestamp ∧
      wd'.recalculateDNI = wdEx.recalculateDNI ∧
      wd'.timeshiftInMinutes = wdEx.timeshiftInMinutes ∧
      wd'.weatherData.month = wdEx.weatherData.month ∧
      wd'.weatherData.day = wdEx.weatherData.day ∧
      wd'.weatherData.hour = wdEx.weatherData.hour ∧
      wd'.weatherData.temp_air = wdEx.weatherData.temp_air ∧
      wd'.weatherData.atmospheric_pressure =
        wdEx.weatherData.atmospheric_pressure ∧
      wd'.weatherData.wind_direction = wdEx.weatherData.wind_direction ∧
      wd'.weatherData.wind_speed = wdEx.weatherData.wind_speed ∧
      wd'.weatherData.sky_cover = wdEx.weatherData.sky_cover ∧
      wd'.weatherData.precipitable_water =
        wdEx.weatherData.precipitable_water ∧
      wd'.weatherData.relative_humidity =
        wdEx.weatherData.relative_humidity ∧
      wd'.weatherData.dni = wdEx.weatherData.dni ∧
      wd'.weatherData.ghi = wdEx.weatherData.ghi ∧
      wd'.weatherData.dhi = wdEx.weatherData.dhi :=
  ⟨by decide, c6_adjust_time_stamp_shift wdEx (by decide)⟩

/-- C7: after the DNI recalculation, the dni series contains no NaN and
no negative-zero value, and at every timestep where ghi equals dhi the
resulting dni is exactly the positive zero. -/
theorem c7_recalculate_dni_clean (wd : WeatherData) (zc : List (ℚ × ℚ)) :
    (∀ x ∈ (recalculateDni wd zc).weatherData.dni,
      x ≠ FV.nan ∧ x ≠ FV.fin 0 true) ∧
    (∀ (i : ℕ) (g : ℚ) (y : FV),
      wd.weatherData.ghi[i]? = some g →
      wd.weatherData.dhi[i]? = some g →
      ((recalculateDni wd zc).weatherData.dni)[i]? = some y →
      y = FV.fin 0 false) := by
  constructor
  · intro x hx
    simp only [recalculateDni, List.map_map, List.mem_map] at hx
    obtain ⟨y, _, hy⟩ := hx
    rw [← hy]
    exact fvClean_ne_nan_negZero y
  · intro i g y hg hd hy
    simp only [recalculateDni, List.map_map, List.getElem?_map] at hy
    cases hraw : (pvlibDniSeries wd.weatherData.ghi wd.weatherData.dhi zc)[i]?
      with
    | none => rw [hraw] at hy; cases hy
    | some v =>
      rw [hraw] at hy
      obtain ⟨g1, d1, zc1, hg1, hd1, _, hv⟩ := pvlibDniSeries_hit hraw
      rw [hg] at hg1
      rw [hd] at hd1
      cases hg1
      cases hd1
      simp only [Option.map_some', Option.some.injEq] at hy
      rw [← hy, hv]
      simpa [Function.comp] using pvlibDniRaw_diag g zc1.1 zc1.2

/-- C7 witness: on a concrete dataset the recalculated dni contains
neither NaN nor a negative zero. -/
theorem c7_recalculate_dni_clean_witness :
    FV.nan ∉ (recalculateDni wdEx zcEx).weatherData.dni ∧
    FV.fin 0 true ∉ (recalculateDni wdEx zcEx).weatherData.dni :=
  ⟨fun h => ((c7_recalculate_dni_clean wdEx zcEx).1 _ h).1 rfl,
   fun h => ((c7_recalculate_dni_clean wdEx zcEx).1 _ h).2 rfl⟩

/-- C4: on a well-formed fixed-format file, a tabular block with any row
count other than 8760 fails with the row-count error, whose message
reports both the actual row count and the source file path; with exactly
8760 rows no error is raised. -/
theorem c4_row_count_validation (tf : ℤ → ℤ → ℚ × ℚ) (path : String)
    (file : DatFile) (h : WfDat path file) :
    (file.dataRows.length ≠ 8760 →
      parseDatFile tf path file =
        .error (.rowCountError path file.dataRows.length) ∧
      strContains (datErrorMessage (.rowCountError path file.dataRows.length))
        path = true ∧
      strContains (datErrorMessage (.rowCountError path file.dataRows.length))
        (toString file.dataRows.length) = true) ∧
    (file.dataRows.length = 8760 →
      ∃ wd, parseDatFile tf path file = .ok wd) := by
  constructor
  · intro hne
    refine ⟨?_, ?_, ?_⟩
    · obtain ⟨m, hm, hhsome, hrsome⟩ := h.headerOk
      obtain ⟨hwv, hhw⟩ := Option.isSome_iff_exists.mp hhsome
      obtain ⟨rwv, hrw⟩ := Option.isSome_iff_exists.mp hrsome
      simp only [parseDatFile, hm, bind, Except.bind, hhw, hrw, pure,
        Except.pure]
      rw [if_pos hne]
      rfl
    · refine strContains_of_eq_append
        "Could not read in the .dat weather data file " path
        (". " ++ (toString file.dataRows.length ++
          " datapoints has been read in instead of 8760. Checke the .dat file and make sure, that the datapoints begin with ***!"))
        ?_
      show (("Could not read in the .dat weather data file " ++ path ++ ". ")
          ++ toString file.dataRows.length ++
          " datapoints has been read in instead of 8760. Checke the .dat file and make sure, that the datapoints begin with ***!") = _
      rw [String.append_assoc, String.append_assoc]
    · exact strContains_of_eq_append
        ("Could not read in the .dat weather data file " ++ path ++ ". ")
        (toString file.dataRows.length)
        " datapoints has been read in instead of 8760. Checke the .dat file and make sure, that the datapoints begin with ***!"
        rfl
  · intro hlen
    obtain ⟨wd, hwd, _⟩ := parseDatFile_ok h hlen
    exact ⟨wd, hwd⟩

/-- C4 witness: a well-formed file with 8759 data rows fails with the
row-count error naming the count and the path, and one with 8760 rows
parses without error. -/
theorem c4_row_count_validation_witness :
    (datFileEx 8759).dataRows.length ≠ 8760 ∧
    parseDatFile tfEx "test.dat" (datFileEx 8759) =
      .error (.rowCountError "test.dat" (datFileEx 8759).dataRows.length) ∧
    strContains (datErrorMessage
      (.rowCountError "test.dat" (datFileEx 8759).dataRows.length))
      "test.dat" = true ∧
    strContains (datErrorMessage
      (.rowCountError "test.dat" (datFileEx 8759).dataRows.length))
      (toString (datFileEx 8759).dataRows.length) = true ∧
    (datFileEx 8760).dataRows.length = 8760 ∧
    (∃ wd, parseDatFile tfEx "test.dat" (datFileEx 8760) = .ok wd) := by
  have h59 : (datFileEx 8759).dataRows.length ≠ 8760 := by
    show (List.replicate 8759 rowEx).length ≠ 8760
    rw [List.length_replicate]
    omega
  have h60 : (datFileEx 8760).dataRows.length = 8760 := by
    show (List.replicate 8760 rowEx).length = 8760
    rw [List.length_replicate]
  have herr :=
    (c4_row_count_validation tfEx "test.dat" (datFileEx 8759)
      (wf_datFileEx 8759)).1 h59
  have hok :=
    (c4_row_count_validation tfEx "test.dat" (datFileEx 8760)
      (wf_datFileEx 8760)).2 h60
  exact ⟨h59, herr.1, herr.2.1, herr.2.2, h60, hok⟩

/-- C5 (amended): a well-formed fixed-format file parses to a dataset of
exactly 8760 records whose timestamps are strictly increasing, spaced one
hour apart, starting at 00:00 on January 1st of the reference year 2015
(minute 0 in the series encoding), with the constant UTC offset of
+1 hour that the parser assigns regardless of header content. -/
theorem c5_parsed_dataset_shape (tf : ℤ → ℤ → ℚ × ℚ) (path : String)
    (file : DatFile) (h : WfDat path file)
    (hlen : file.dataRows.length = 8760) :
    ∃ wd, parseDatFile tf path file = .ok wd ∧
      wd.weatherData.timeStamps.length = 8760 ∧
      wd.weatherData.timeStamps.head? = some 0 ∧
      (∀ i : ℕ, i + 1 < 8760 → gap wd.weatherData.timeStamps i = some 60) ∧
      (∀ (i j : ℕ) (a b : ℤ), i < j →
        wd.weatherData.timeStamps[i]? = some a →
        wd.weatherData.timeStamps[j]? = some b → a < b) ∧
      wd.tz = 1 := by
  obtain ⟨wd, hwd, hts, htz, _⟩ := parseDatFile_ok h hlen
  refine ⟨wd, hwd, ?_, ?_, ?_, ?_, htz⟩
  · rw [hts, datRange_length]
  · rw [hts, List.head?_eq_getElem?, datRange_hit 0]
    simp
  · intro i hi
    have hi0 : i < 8760 := by omega
    rw [hts]
    unfold gap
    rw [datRange_hit i, datRange_hit (i + 1), if_pos hi0, if_pos hi]
    show some (60 * ((i : ℤ) + 1) - 60 * (i : ℤ)) = some 60
    congr 1
    ring
  · intro i j a b hij ha hb
    rw [hts, datRange_hit i] at ha
    rw [hts, datRange_hit j] at hb
    by_cases hi : i < 8760
    · by_cases hj : j < 8760
      · rw [if_pos hi] at ha
        rw [if_pos hj] at hb
        cases ha
        cases hb
        have : (i : ℤ) < (j : ℤ) := by exact_mod_cast hij
        omega
      · rw [if_neg hj] at hb
        cases hb
    · rw [if_neg hi] at ha
      cases ha

/-- C5 witness: the concrete well-formed 8760-row file parses to the
8760-record hourly dataset with the fixed offset. -/
theorem c5_parsed_dataset_shape_witness :
    (datFileEx 8760).dataRows.length = 8760 ∧
    ∃ wd, parseDatFile tfEx "test.dat" (datFileEx 8760) = .ok wd ∧
      wd.weatherData.timeStamps.length = 8760 ∧
      wd.weatherData.timeStamps.head? = some 0 ∧
      (∀ i : ℕ, i + 1 < 8760 → gap wd.weatherData.timeStamps i = some 60) ∧
      (∀ (i j : ℕ) (a b : ℤ), i < j →
        wd.weatherData.timeStamps[i]? = some a →
        wd.weatherData.timeStamps[j]? = some b → a < b) ∧
      wd.tz = 1 := by
  have h60 : (datFileEx 8760).dataRows.length = 8760 := by
    show (List.replicate 8760 rowEx).length = 8760
    rw [List.length_replicate]
  exact ⟨h60, c5_parsed_dataset_shape tfEx "test.dat" (datFileEx 8760)
    (wf_datFileEx 8760) h60⟩

/-- C5 counterexample: the claim that the parsed dataset carries the UTC
offset the header declares is false: a well-formed file whose header
declares a UTC offset of 2 still parses to a dataset with offset 1 — the
parser hard-codes the offset and never reads one from the header. -/
theorem c5_utc_offset_not_declared :
    specDeclaredUtcOffset datFileUtcEx.headerLines = some 2 ∧
    ∃ wd, parseDatFile tfEx "test.dat" datFileUtcEx = .ok wd ∧
      wd.tz = 1 ∧ some wd.tz ≠ specDeclaredUtcOffset datFileUtcEx.headerLines := by
  have h60 : datFileUtcEx.dataRows.length = 8760 := by
    show (List.replicate 8760 rowEx).length = 8760
    rw [List.length_replicate]
  obtain ⟨wd, hwd, _, htz, _⟩ := parseDatFile_ok wf_datFileUtcEx h60
  refine ⟨by decide, wd, hwd, htz, ?_⟩
  rw [htz]
  decide

/-- C10: the parser initializes the dni column of the returned dataset
with the file's direct-horizontal-irradiance column `B`, and
unconditionally sets adjustTimestamp, recalculateDNI and a timeshift of
30 minutes. -/
theorem c10_dat_dni_from_direct_horizontal (tf : ℤ → ℤ → ℚ × ℚ)
    (path : String) (file : DatFile) (h : WfDat path file)
    (hlen : file.dataRows.length = 8760) :
    ∃ wd colB, parseDatFile tf path file = .ok wd ∧
      getCol path (colNamesOf file) file.dataRows "B" = .ok colB ∧
      wd.weatherData.dni = colB.map (fun v => FV.fin v false) ∧
      wd.adjustTimestamp = true ∧ wd.recalculateDNI = true ∧
      wd.timeshiftInMinutes = 30 := by
  obtain ⟨wd, hwd, _, _, hadj, hrec, hshift, _, ⟨colB, hcolB, hdni, _⟩, _⟩ :=
    parseDatFile_ok h hlen
  exact ⟨wd, colB, hwd, hcolB, hdni, hadj, hrec, hshift⟩

/-- C10 witness: the concrete file's dni column is its `B` column and the
flags are set. -/
theorem c10_dat_dni_from_direct_horizontal_witness :
    (datFileEx 8760).dataRows.length = 8760 ∧
    ∃ wd colB, parseDatFile tfEx "test.dat" (datFileEx 8760) = .ok wd ∧
      getCol "test.dat" (colNamesOf (datFileEx 8760)) (datFileEx 8760).dataRows
        "B" = .ok colB ∧
      wd.weatherData.dni = colB.map (fun v => FV.fin v false) ∧
      wd.adjustTimestamp = true ∧ wd.recalculateDNI = true ∧
      wd.timeshiftInMinutes = 30 := by
  have h60 : (datFileEx 8760).dataRows.length = 8760 := by
    show (List.replicate 8760 rowEx).length = 8760
    rw [List.length_replicate]
  exact ⟨h60, c10_dat_dni_from_direct_horizontal tfEx "test.dat"
    (datFileEx 8760) (wf_datFileEx 8760) h60⟩

/-- C2 counterexample: on two completed plants with profiles `[2]`, `[0]`
and areas 1, 3, the code's fleet area-normalized column is `[1/2]`
(summed energy over total area) while the arithmetic mean of the
per-plant area profiles is `[1]`; the claim's equality fails. -/
theorem c2_fleet_area_profile_not_mean :
    (generateEnergyProfileDataFrame [plantAEx, plantBEx]).allAreaColumn ≠
      specFleetAreaProfile [plantAEx, plantBEx] := by
  simp only [generateEnergyProfileDataFrame, specFleetAreaProfile, sumCols,
    addVec, profileOf, energyProfileArea, plantAEx, plantBEx]
  norm_num

/-- C2 (amended): at every timestep, the fleet-level hourly
area-normalized profile equals the sum over plants of the hourly energy
profiles divided by the total surface area (not the arithmetic mean of
the per-plant area profiles). -/
theorem c2_fleet_area_profile_sum_over_total_area
    (plants : List PhotovoltaicPlant) (n : ℕ) (hne : plants ≠ [])
    (hlen : ∀ p ∈ plants, (profileOf p).length = n) :
    ∀ i : ℕ, i < n →
      (generateEnergyProfileDataFrame plants).allAreaColumn[i]? =
        some ((plants.map (fun p => (profileOf p).getD i 0)).sum /
          (plants.map (fun p => p.surfaceArea.getD 0)).sum) := by
  intro i hi
  have hcols : ∀ col ∈ plants.map profileOf, col.length = n := by
    intro col hc
    obtain ⟨p, hp, hpc⟩ := List.mem_map.mp hc
    rw [← hpc]
    exact hlen p hp
  have hcne : plants.map profileOf ≠ [] := by
    simpa using hne
  have hhit := sumCols_hit hcne hcols hi
  simp only [generateEnergyProfileDataFrame]
  rw [List.getElem?_map, hhit]
  simp only [Option.map_some', List.map_map]
  rfl

/-- C2 witness: the amended fleet area profile at the concrete two-plant
input. -/
theorem c2_fleet_area_profile_sum_over_total_area_witness :
    ([plantAEx, plantBEx] ≠ ([] : List PhotovoltaicPlant)) ∧ 0 < 1 ∧
    (generateEnergyProfileDataFrame [plantAEx, plantBEx]).allAreaColumn[0]? =
      some (([plantAEx, plantBEx].map
          (fun p => (profileOf p).getD 0 0)).sum /
        ([plantAEx, plantBEx].map (fun p => p.surfaceArea.getD 0)).sum) :=
  ⟨by decide, by decide,
    c2_fleet_area_profile_sum_over_total_area [plantAEx, plantBEx] 1
      (by decide) (by decide) 0 (by decide)⟩

/-- C8: for a fleet of N identical completed plants with profile X,
stored rating K and area A, the synthetic fleet-summary record satisfies
SumOfEnergyPerYear = N * sum X, WorkSpecificEnergyPerYear = sum X / K,
and AreaSpecificEnergyPerYear = sum X / A. -/
theorem c8_identical_fleet_summary (N : ℕ) (X : List ℚ) (K A : ℚ)
    (name : String) (hN : 1 ≤ N) :
    (buildSummaryOfAllPlants
      (List.replicate N (mkCompletedPlant name X A K))).SumOfEnergyPerYear =
        (N : ℚ) * X.sum ∧
    (buildSummaryOfAllPlants
      (List.replicate N (mkCompletedPlant name X A K))).WorkSpecificEnergyPerYear =
        X.sum / K ∧
    (buildSummaryOfAllPlants
      (List.replicate N (mkCompletedPlant name X A K))).AreaSpecificEnergyPerYear =
        X.sum / A := by
  have hNq : (N : ℚ) ≠ 0 := Nat.cast_ne_zero.mpr (by omega)
  have hmapP : (List.replicate N (mkCompletedPlant name X A K)).map profileOf =
      List.replicate N X := by
    rw [List.map_replicate]
    rfl
  have hmapK : (List.replicate N (mkCompletedPlant name X A K)).map
      (fun p => p.systemKWP.getD 0) = List.replicate N K := by
    rw [List.map_replicate]
    rfl
  have hmapA : (List.replicate N (mkCompletedPlant name X A K)).map
      (fun p => p.surfaceArea.getD 0) = List.replicate N A := by
    rw [List.map_replicate]
    rfl
  have hsum := sumCols_replicate_sum X hN
  have hKsum : (List.replicate N K).sum = (N : ℚ) * K := by
    rw [List.sum_replicate, nsmul_eq_mul]
  have hAsum : (List.replicate N A).sum = (N : ℚ) * A := by
    rw [List.sum_replicate, nsmul_eq_mul]
  refine ⟨?_, ?_, ?_⟩
  · show (sumCols ((List.replicate N (mkCompletedPlant name X A K)).map
      profileOf)).sum = (N : ℚ) * X.sum
    rw [hmapP, hsum]
  · show (sumCols ((List.replicate N (mkCompletedPlant name X A K)).map
      profileOf)).sum /
        ((List.replicate N (mkCompletedPlant name X A K)).map
          (fun p => p.systemKWP.getD 0)).sum = X.sum / K
    rw [hmapP, hsum, hmapK, hKsum]
    exact mul_div_mul_left X.sum K hNq
  · show (sumCols ((List.replicate N (mkCompletedPlant name X A K)).map
      profileOf)).sum /
        ((List.replicate N (mkCompletedPlant name X A K)).map
          (fun p => p.surfaceArea.getD 0)).sum = X.sum / A
    rw [hmapP, hsum, hmapA, hAsum]
    exact mul_div_mul_left X.sum A hNq

/-- C8 witness: two identical plants with profile `[1, 2]`, rating 3 and
area 4. -/
theorem c8_identical_fleet_summary_witness :
    (1 : ℕ) ≤ 2 ∧
    (buildSummaryOfAllPlants
      (List.replicate 2 (mkCompletedPlant "m" [1, 2] 4 3))).SumOfEnergyPerYear =
        ((2 : ℕ) : ℚ) * ([1, 2] : List ℚ).sum ∧
    (buildSummaryOfAllPlants
      (List.replicate 2 (mkCompletedPlant "m" [1, 2] 4 3))).WorkSpecificEnergyPerYear =
        ([1, 2] : List ℚ).sum / 3 ∧
    (buildSummaryOfAllPlants
      (List.replicate 2 (mkCompletedPlant "m" [1, 2] 4 3))).AreaSpecificEnergyPerYear =
        ([1, 2] : List ℚ).sum / 4 := by
  have h := c8_identical_fleet_summary 2 [1, 2] 3 4 "m" (by decide)
  exact ⟨by decide, h.1, h.2.1, h.2.2⟩

/-- C1: evaluation of the orchestrator at a failing input. The per-plant
calculation computes the rated module power (Impo times Vmpo times the
module count, 240 W, that is 0.24 kWp for the concrete module) but does
not return it; the orchestrator instead stores the annual energy sum
4380 kWh into the plant's `systemKWP` field, and the summary's
work-specific yield consequently degenerates to the constant unit factor
1000 instead of depending on the module rating. -/
theorem c1_system_kwp_stores_energy_sum :
    calcPvPowerProfile envEx goodPlantEx physEx =
      .ok ⟨[4380000], 2, 4380⟩ ∧
    runPlants envEx 0 [goodPlantEx] = .ok [goodPlantDoneEx] ∧
    ratedPowerAndArea goodPlantEx.modulesDatabaseType moduleEx 1 =
      .ok (240, 2) ∧
    goodPlantDoneEx.systemKWP = some 4380 ∧
    ((240 : ℚ) / 1000) ≠ 4380 ∧
    (generateSummaryDataFrame [goodPlantDoneEx]).fleet.2.1 = 1000 := by
  refine ⟨?_, ?_, ?_, rfl, by norm_num, ?_⟩
  · simp only [calcPvPowerProfile, getModulesAndInverters, envEx, goodPlantEx,
      physEx, moduleEx, moduleInstallationLookup, dcModelLookup,
      ratedPowerAndArea, bind, Except.bind, pure, Except.pure, throw,
      throwThe, MonadExceptOf.throw]
    norm_num
  · simp only [runPlants, calcPvPowerProfile, getModulesAndInverters, envEx,
      goodPlantEx, physEx, moduleEx, moduleInstallationLookup, dcModelLookup,
      ratedPowerAndArea, goodPlantDoneEx, bind, Except.bind, pure,
      Except.pure, throw, throwThe, MonadExceptOf.throw]
    norm_num
  · simp only [goodPlantEx, ratedPowerAndArea, moduleEx, pure, Except.pure]
    norm_num
  · simp only [generateSummaryDataFrame, sumCols, profileOf, goodPlantDoneEx,
      goodPlantEx]
    norm_num

/-- C9 counterexample: the propagated error is identical whether the
offending plant sits at index 0 or at index 1 of the fleet: the surfaced
error carries no plant index. -/
theorem c9_propagated_error_has_no_plant_index :
    runPlants envEx 0 [badPlantEx, goodPlantEx] = .error (.configError 3) ∧
    runPlants envEx 0 [goodPlantEx, badPlantEx] = .error (.configError 3) := by
  constructor
  · simp only [runPlants, calcPvPowerProfile, getModulesAndInverters, envEx,
      badPlantEx, goodPlantEx, physEx, moduleInstallationLookup,
      dcModelLookup, ratedPowerAndArea, bind, Except.bind, pure, Except.pure,
      throw, throwThe, MonadExceptOf.throw]
    norm_num
  · simp only [runPlants, calcPvPowerProfile, getModulesAndInverters, envEx,
      badPlantEx, goodPlantEx, physEx, moduleEx, moduleInstallationLookup,
      dcModelLookup, ratedPowerAndArea, bind, Except.bind, pure, Except.pure,
      throw, throwThe, MonadExceptOf.throw]
    norm_num

/-- C9 (amended): a plant with an unknown module-database selector fails
with the error naming the bad selector value; and every error raised
during a plant's simulation aborts the run and propagates to the caller
unchanged, without the offending plant's index attached. -/
theorem c9_unknown_selector_and_unindexed_propagation :
    (∀ (env : SimEnv) (plant : PhotovoltaicPlant) (phys : PhysicsOutput),
      plant.modulesDatabaseType ≠ 1 → plant.modulesDatabaseType ≠ 2 →
      calcPvPowerProfile env plant phys =
        .error (.configError plant.modulesDatabaseType) ∧
      strContains (simErrorMessage (.configError plant.modulesDatabaseType))
        (toString plant.modulesDatabaseType) = true) ∧
    (∀ (env : SimEnv) (i : ℕ) (p : PhotovoltaicPlant)
      (ps : List PhotovoltaicPlant) (e : SimError),
      calcPvPowerProfile env p (env.physics i) = .error e →
      runPlants env i (p :: ps) = .error e) ∧
    (∀ (env : SimEnv) (post pre : List PhotovoltaicPlant) (i : ℕ)
      (qs : List PhotovoltaicPlant) (p : PhotovoltaicPlant) (e : SimError),
      runPlants env i pre = .ok qs →
      calcPvPowerProfile env p (env.physics (i + pre.length)) = .error e →
      runPlants env i (pre ++ p :: post) = .error e) := by
  refine ⟨?_, ?_, ?_⟩
  · intro env plant phys h1 h2
    refine ⟨calc_configError h1 h2, ?_⟩
    refine strContains_of_eq_append "Unknown modules database type: "
      (toString plant.modulesDatabaseType) "" ?_
    show "Unknown modules database type: " ++
        toString plant.modulesDatabaseType = _
    exact (String.append_empty _).symm
  · intro env i p ps e h
    exact runPlants_cons_err h
  · intro env post pre i qs p e hok hcalc
    exact runPlants_append_err post pre hok hcalc

/-- C9 witness: the concrete bad plant fails with the error naming its
selector value 3, and the one-plant run surfaces that same error. -/
theorem c9_unknown_selector_witness :
    badPlantEx.modulesDatabaseType = 3 ∧
    calcPvPowerProfile envEx badPlantEx (envEx.physics 0) =
      .error (.configError 3) ∧
    strContains (simErrorMessage (.configError 3)) (toString (3 : ℤ)) = true ∧
    runPlants envEx 0 [badPlantEx] = .error (.configError 3) := by
  have h := c9_unknown_selector_and_unindexed_propagation
  have h1 := h.1 envEx badPlantEx (envEx.physics 0) (by decide) (by decide)
  exact ⟨rfl, h1.1, h1.2, h.2.1 envEx 0 badPlantEx [] _ h1.1⟩

end Sodele
